import Mathlib

/-
Verification of the pyasic-umhost telemetry client.

The development shallowly embeds the parts of the code base that the
checked properties are about:

* `src/API/__init__.py` — the socket RPC client `BaseMinerAPI`
  (`multicommand` joining, sentinel stripping, and the status-check phase
  of `send_command`);
* `src/pyasic/miners/backends/antminer.py` — the extraction functions of
  the `AntminerModern` and `AntminerOld` device families together with
  the old family's field descriptor table.

Parsed JSON payloads are modelled by the inductive `PyVal` (Python
values); Python exceptions by `PyExc`; fallible code returns
`Except PyExc`.  Python dicts are insertion-ordered association lists,
looked up by first match; Python text is a sequence of code points
(`List Char`).  Machine floats that only flow through the code unchanged
are modelled as rationals.
-/

/-- PyVal models a parsed Python/JSON value: ints, floats (as rationals),
strings, lists, string-keyed dicts (insertion-ordered association lists),
booleans and None. -/
inductive PyVal where
  | int : Int → PyVal
  | float : ℚ → PyVal
  | str : String → PyVal
  | list : List PyVal → PyVal
  | dict : List (String × PyVal) → PyVal
  | boolean : Bool → PyVal
  | null : PyVal

/-- PyExc models the Python exceptions the embedded code can raise:
`APIError` (from `src/API/__init__.py`, carrying the argument it was
constructed with), `KeyError` (carrying the missing key), `IndexError`,
`TypeError`, and `ValueError` (carrying the offending literal). -/
inductive PyExc where
  | apiError : PyVal → PyExc
  | keyError : String → PyExc
  | indexError : PyExc
  | typeError : PyExc
  | valueError : String → PyExc

/-- Python dict lookup `d.get(k)`: the value of the first pair whose key
equals `k`, if any. -/
def pyGet {α : Type} (d : List (String × α)) (k : String) : Option α :=
  (d.find? (fun p => p.1 == k)).map Prod.snd

/-- Python membership test `k in d` for a dict. -/
def pyDictContains (d : List (String × PyVal)) (k : String) : Bool :=
  (d.find? (fun p => p.1 == k)).isSome

/-- Python subscript `v[k]` with a string key: succeeds on dicts holding
the key, raises `KeyError` on dicts lacking it, `TypeError` otherwise. -/
def pySubscriptStr (v : PyVal) (k : String) : Except PyExc PyVal :=
  match v with
  | PyVal.dict d =>
    match pyGet d k with
    | some w => Except.ok w
    | Option.none => Except.error (PyExc.keyError k)
  | _ => Except.error PyExc.typeError

/-- Python subscript `v[i]` with a non-negative integer index: succeeds
on lists that are long enough, raises `IndexError` on short lists,
`TypeError` otherwise (string indexing, unused by the embedded code, is
folded into `TypeError`). -/
def pySubscriptNat (v : PyVal) (i : Nat) : Except PyExc PyVal :=
  match v with
  | PyVal.list l =>
    match l.get? i with
    | some w => Except.ok w
    | Option.none => Except.error PyExc.indexError
  | _ => Except.error PyExc.typeError

/-- Python equality `v == s` against a string literal, as used by the
status checks: true exactly for the equal string. -/
def pyEqStr (v : PyVal) (s : String) : Bool :=
  match v with
  | PyVal.str t => t == s
  | _ => false

/-- isLookupError classifies the exceptions caught by Python's
`except LookupError` (`KeyError` and `IndexError`). -/
def isLookupError : PyExc → Bool
  | PyExc.keyError _ => true
  | PyExc.indexError => true
  | _ => false

/-- pyStrOf models Python `str(v)`.  Ints render exactly; the renderings
of floats and containers are abbreviated, preserving the only property
the embedded code relies on: they contain a character that is not a
decimal digit (a dot, bracket or letter). -/
def pyStrOf : PyVal → String
  | PyVal.int n => toString n
  | PyVal.float q => toString q.num ++ "." ++ toString q.den
  | PyVal.str s => s
  | PyVal.list _ => "[...]"
  | PyVal.dict _ => "\x7b...\x7d"
  | PyVal.boolean b => if b then "True" else "False"
  | PyVal.null => "None"

/-- pyIsDigit models Python `s.isdigit()` on ASCII text: the string is
nonempty and every character is a decimal digit. -/
def pyIsDigit (s : String) : Bool :=
  !s.data.isEmpty && s.data.all Char.isDigit

/-- trimSpaces strips leading and trailing spaces from a character list,
modelling the whitespace stripping of Python's numeric constructors. -/
def trimSpaces (l : List Char) : List Char :=
  (((l.dropWhile (fun c => c == ' ')).reverse.dropWhile (fun c => c == ' ')).reverse)

/-- digitsVal reads a nonempty all-digit character list as a natural
number; any other list yields no value. -/
def digitsVal (cs : List Char) : Option Nat :=
  if cs.isEmpty then Option.none
  else cs.foldl (fun acc c =>
    match acc with
    | Option.none => Option.none
    | some n => if c.isDigit then some (n * 10 + (c.toNat - 48)) else Option.none) (some 0)

/-- pyParseInt models Python `int(s)` on a string: strip surrounding
spaces, accept an optional sign followed by digits, otherwise raise
`ValueError`. -/
def pyParseInt (s : String) : Except PyExc Int :=
  match trimSpaces s.data with
  | [] => Except.error (PyExc.valueError s)
  | c :: rest =>
    if c == '-' then
      match digitsVal rest with
      | some n => Except.ok (-(n : Int))
      | Option.none => Except.error (PyExc.valueError s)
    else if c == '+' then
      match digitsVal rest with
      | some n => Except.ok (n : Int)
      | Option.none => Except.error (PyExc.valueError s)
    else
      match digitsVal (c :: rest) with
      | some n => Except.ok (n : Int)
      | Option.none => Except.error (PyExc.valueError s)

/-- ratTrunc is truncation of a rational toward zero, as Python
`int(float)` does. -/
def ratTrunc (q : ℚ) : Int := q.num / (q.den : Int)

/-- pyIntOf models Python `int(v)`: identity on ints, `False`/`True` to
0/1, truncation on floats, `pyParseInt` on strings, `TypeError` on
`None`, lists and dicts. -/
def pyIntOf : PyVal → Except PyExc Int
  | PyVal.int n => Except.ok n
  | PyVal.boolean b => Except.ok (if b then 1 else 0)
  | PyVal.float q => Except.ok (ratTrunc q)
  | PyVal.str s => pyParseInt s
  | _ => Except.error PyExc.typeError

/-- pyParseFloat models Python `float(s)` on a string: strip surrounding
spaces, accept an optional sign, digits and an optional fractional part,
otherwise raise `ValueError`. -/
def pyParseFloat (s : String) : Except PyExc ℚ :=
  let unsigned : List Char → Option ℚ := fun l =>
    match l.splitOn '.' with
    | [a] => (digitsVal a).map (fun n => (n : ℚ))
    | [a, b] =>
      match digitsVal a, digitsVal b with
      | some n, some f => some ((n : ℚ) + (f : ℚ) / ((10 : ℚ) ^ b.length))
      | _, _ => Option.none
    | _ => Option.none
  match trimSpaces s.data with
  | [] => Except.error (PyExc.valueError s)
  | c :: rest =>
    if c == '-' then
      match unsigned rest with
      | some q => Except.ok (-q)
      | Option.none => Except.error (PyExc.valueError s)
    else if c == '+' then
      match unsigned rest with
      | some q => Except.ok q
      | Option.none => Except.error (PyExc.valueError s)
    else
      match unsigned (c :: rest) with
      | some q => Except.ok q
      | Option.none => Except.error (PyExc.valueError s)

/-- pyFloatOf models Python `float(v)`: ints and floats convert, strings
are parsed, `None`, lists and dicts raise `TypeError`. -/
def pyFloatOf : PyVal → Except PyExc ℚ
  | PyVal.int n => Except.ok (n : ℚ)
  | PyVal.float q => Except.ok q
  | PyVal.boolean b => Except.ok (if b then 1 else 0)
  | PyVal.str s => pyParseFloat s
  | _ => Except.error PyExc.typeError

/-- ratFloor is the floor of a rational, computed with flooring integer
division. -/
def ratFloor (q : ℚ) : Int := q.num.fdiv (q.den : Int)

/-- pyRound models Python 3 `round(q)` on an exact value: round half to
even. -/
def pyRound (q : ℚ) : Int :=
  let f := ratFloor q
  let r := q - (f : ℚ)
  if r < 1 / 2 then f
  else if 1 / 2 < r then f + 1
  else if f % 2 = 0 then f else f + 1

namespace BaseMinerAPI

/-- pyJoin models Python `sep.join(parts)`. -/
def pyJoin (sep : String) : List String → String
  | [] => ""
  | [x] => x
  | x :: y :: xs => x ++ sep ++ pyJoin sep (y :: xs)

/-- multicommand models the request-string construction of
`BaseMinerAPI.multicommand` (src/API/__init__.py line 25): the command
names are joined with `+` and sent as one `send_command` call. -/
def multicommand (commands : List String) : String :=
  pyJoin "+" commands

/-- stripSentinel models line 50 of src/API/__init__.py,
`data.decode('utf-8')[:-1]`: after decoding, exactly the final character
of the received text is discarded (Python slicing leaves empty text
unchanged). -/
def stripSentinel (text : List Char) : List Char :=
  text.dropLast

/-- subStatusOf evaluates `data[key][0]["STATUS"][0]["STATUS"]` (line 63
of src/API/__init__.py), the status code of one sub-command of a
multicommand response. -/
def subStatusOf (data : List (String × PyVal)) (key : String) : Except PyExc PyVal := do
  let entry ← pySubscriptStr (PyVal.dict data) key
  let e0 ← pySubscriptNat entry 0
  let stArr ← pySubscriptStr e0 "STATUS"
  let st0 ← pySubscriptNat stArr 0
  pySubscriptStr st0 "STATUS"

/-- topMsgOf evaluates `data["STATUS"][0]["Msg"]` (lines 65 and 73 of
src/API/__init__.py), the expression whose value is passed to
`APIError`. -/
def topMsgOf (data : List (String × PyVal)) : Except PyExc PyVal := do
  let stArr ← pySubscriptStr (PyVal.dict data) "STATUS"
  let st0 ← pySubscriptNat stArr 0
  pySubscriptStr st0 "Msg"

/-- multiLoop embeds the `for key in data.keys()` loop of
`send_command` (lines 59-65 of src/API/__init__.py): every non-`id` key
has its sub-command status checked against `S` and `I`; on the first
failure the code evaluates `data["STATUS"][0]["Msg"]` and raises
`APIError` with it. -/
def multiLoop (data : List (String × PyVal)) : List (String × PyVal) → Except PyExc Unit
  | [] => Except.ok ()
  | (key, _) :: rest =>
    if key == "id" then multiLoop data rest
    else do
      let code ← subStatusOf data key
      if pyEqStr code "S" || pyEqStr code "I" then multiLoop data rest
      else do
        let msg ← topMsgOf data
        Except.error (PyExc.apiError msg)

/-- statusCheck embeds the response-classification phase of
`BaseMinerAPI.send_command` (lines 57-77 of src/API/__init__.py): a
response without a top-level `STATUS` key is treated as a multicommand
response and every sub-command is checked; otherwise the single
top-level status is checked; the parsed payload is returned unchanged on
success. -/
def statusCheck (data : List (String × PyVal)) : Except PyExc (List (String × PyVal)) :=
  if !(pyDictContains data "STATUS") then do
    multiLoop data data
    pure data
  else do
    let code ← (do
      let stArr ← pySubscriptStr (PyVal.dict data) "STATUS"
      let st0 ← pySubscriptNat stArr 0
      pySubscriptStr st0 "STATUS")
    if !(pyEqStr code "S" || pyEqStr code "I") then do
      let msg ← topMsgOf data
      Except.error (PyExc.apiError msg)
    else pure data

end BaseMinerAPI

/-- HashBoard is the per-board telemetry record assembled by the
hashboard extractions.  Modelled from the spec: the class itself lives
in `pyasic.data`, outside src/; the spec states that boards lacking
usable telemetry are explicit placeholder entries flagged missing, so a
freshly constructed board carries `missing := true` and unknown
(`none`) readings.  Hashrates are kept in the unit the device reported
(the canonical-unit conversion is a pure multiplicative scale outside
src/). -/
structure HashBoard where
  slot : Int
  hashrate : Option ℚ := Option.none
  temp : Option ℚ := Option.none
  chip_temp : Option ℚ := Option.none
  chips : Option ℚ := Option.none
  serial_number : Option String := Option.none
  expected_chips : Option Int := Option.none
  missing : Bool := true
  deriving DecidableEq

/-- boardTempAvg embeds the sensor-average computation of
`AntminerModern._get_hashboards` (lines 301-313 of
src/pyasic/miners/backends/antminer.py): literal-zero readings are
filtered out and only the remaining readings are averaged; when no
nonzero reading remains, no average is produced. -/
def boardTempAvg (temps : List ℚ) : Option ℚ :=
  let valid := temps.filter (fun t => t != 0)
  if valid.isEmpty then Option.none
  else some (valid.sum / (valid.length : ℚ))

/-- ChainBoard is one entry of the `chain` array consumed by
`AntminerModern._get_hashboards`, projected to the keys the code reads;
a `none` field models an absent key (for `rate_real` and `asic_num`,
absent-or-None, which the code treats alike). -/
structure ChainBoard where
  index : Option Int := Option.none
  rate_real : Option ℚ := Option.none
  asic_num : Option Int := Option.none
  temp_pcb : Option (List ℚ) := Option.none
  temp_chip : Option (List ℚ) := Option.none
  sn : Option String := Option.none

namespace AntminerModern

/-- processChainBoard embeds the per-board body of
`AntminerModern._get_hashboards` (lines 264-328 of
src/pyasic/miners/backends/antminer.py): entries without an `index` are
skipped; a board starts as `missing := true`; hashrate, chip count,
temperature averages and serial number are filled from the available
keys; the board is cleared of its missing flag exactly when a hashrate
or a chip count was obtained, and it is appended only in that case
(`if not hb.missing`), so a board kept missing yields `none`. -/
def processChainBoard (expectedChips : Option Int) (b : ChainBoard) : Option HashBoard :=
  match b.index with
  | Option.none => Option.none
  | some idx =>
    let hashrate := b.rate_real
    let chips := (b.asic_num).map (fun c => (c : ℚ))
    let temp :=
      match b.temp_pcb with
      | some l => if !l.isEmpty then boardTempAvg l else Option.none
      | Option.none => Option.none
    let chipTemp :=
      match b.temp_chip with
      | some l => if !l.isEmpty then boardTempAvg l else Option.none
      | Option.none => Option.none
    let missing := !(hashrate.isSome || chips.isSome)
    if missing then Option.none
    else some { slot := idx, hashrate := hashrate, temp := temp,
                chip_temp := chipTemp, chips := chips, serial_number := b.sn,
                expected_chips := expectedChips, missing := missing }

/-- get_hashboards embeds the board loop of
`AntminerModern._get_hashboards` over an already extracted `chain`
array: each entry is processed and the produced (non-missing) boards
are collected in order. -/
def get_hashboards (expectedChips : Option Int) (chain : List ChainBoard) : List HashBoard :=
  chain.filterMap (processChainBoard expectedChips)

/-- is_mining embeds `AntminerModern._is_mining` (lines 416-431 of
src/pyasic/miners/backends/antminer.py).  A `none` payload models the
dependency being absent with its fallback fetch failing, in which case
the function falls through and resolves to unknown; otherwise the
`bitmain-work-mode` value is consulted: a digit-rendering value `v`
yields `False` when `int(v) == 1` and `True` otherwise, any other value
yields `False`; a missing key is a caught `LookupError` resolving to
unknown. -/
def is_mining (webGetConf : Option (List (String × PyVal))) : Except PyExc (Option Bool) :=
  match webGetConf with
  | Option.none => Except.ok Option.none
  | some d =>
    match pyGet d "bitmain-work-mode" with
    | Option.none => Except.ok Option.none
    | some v =>
      if pyIsDigit (pyStrOf v) then
        match pyIntOf v with
        | Except.ok n => Except.ok (some (n != 1))
        | Except.error e => Except.error e
      else Except.ok (some false)

/-- is_sleep embeds `AntminerModern._is_sleep` (lines 433-448 of
src/pyasic/miners/backends/antminer.py), the mirror image of
`is_mining`: a digit-rendering `bitmain-work-mode` value `v` yields
`True` when `int(v) == 1` and `False` otherwise, any other value yields
`False`. -/
def is_sleep (webGetConf : Option (List (String × PyVal))) : Except PyExc (Option Bool) :=
  match webGetConf with
  | Option.none => Except.ok Option.none
  | some d =>
    match pyGet d "bitmain-work-mode" with
    | Option.none => Except.ok Option.none
    | some v =>
      if pyIsDigit (pyStrOf v) then
        match pyIntOf v with
        | Except.ok n => Except.ok (some (n == 1))
        | Except.error e => Except.error e
      else Except.ok (some false)

/-- get_expected_hashrate embeds `AntminerModern._get_expected_hashrate`
(lines 352-372 of src/pyasic/miners/backends/antminer.py): it reads
`rpc_stats["STATS"][1]["total_rateideal"]`, the unit from `rate_unit`
defaulting to `GH` on a caught `KeyError`, converts the rate with
`float(...)`, and resolves to unknown on a caught `LookupError`; any
other exception (such as the `ValueError`/`TypeError` of `float`)
escapes.  The result pairs the rate with the raw unit value (the unit
conversion is a pure scale outside src/).  expected_rate_nav is the body
of the source's `try` block. -/
def expected_rate_nav (d : List (String × PyVal)) : Except PyExc (ℚ × PyVal) := do
  let stArr ← pySubscriptStr (PyVal.dict d) "STATS"
  let st1 ← pySubscriptNat stArr 1
  let rate ← pySubscriptStr st1 "total_rateideal"
  let unit : PyVal :=
    match pySubscriptStr st1 "rate_unit" with
    | Except.ok u => u
    | Except.error _ => PyVal.str "GH"
  let r ← pyFloatOf rate
  pure (r, unit)

/-- get_expected_hashrate wraps `expected_rate_nav` in the
`try/except LookupError` of the source: lookup failures resolve to
unknown, any other exception escapes. -/
def get_expected_hashrate (rpcStats : Option (List (String × PyVal))) :
    Except PyExc (Option (ℚ × PyVal)) :=
  match rpcStats with
  | Option.none => Except.ok Option.none
  | some d =>
    match expected_rate_nav d with
    | Except.ok v => Except.ok (some v)
    | Except.error e => if isLookupError e then Except.ok Option.none else Except.error e

end AntminerModern

/-- RpcStatsOld is the `rpc_stats` payload consumed by the `AntminerOld`
extractions, projected to what they read: the optional `STATS` key
(`none` models a missing key, the caught `LookupError` case) holding the
array of per-section dicts, themselves projected to their
numeric-valued keys (the only ones these extractions consult). -/
structure RpcStatsOld where
  stats : Option (List (List (String × ℚ)))

namespace AntminerOld

/-- fan_offset embeds the fan offset-detection scan of
`AntminerOld._get_fans` (lines 638-646 of
src/pyasic/miners/backends/antminer.py): for each candidate group start
`fan_num` in `range(1, 8, 4)` and each of the four keys
`fan(fan_num + _f_num)`, the first nonzero reading fixes the offset to
`fan_num + 2`; if no reading is nonzero the offset defaults to `3`. -/
def fan_offset (stats1 : List (String × ℚ)) : Int :=
  let scanGroup := fun (acc : Int) (fanNum : Nat) =>
    (List.range 4).foldl (fun a fNum =>
      match pyGet stats1 ("fan" ++ toString (fanNum + fNum)) with
      | some f => if f ≠ 0 ∧ a = -1 then ((fanNum : Int) + 2) else a
      | Option.none => a) acc
  let off := ([1, 5] : List Nat).foldl scanGroup (-1)
  if off = -1 then 3 else off

/-- get_fans embeds `AntminerOld._get_fans` (lines 631-657 of
src/pyasic/miners/backends/antminer.py), returning the fan speed slots
(`none` is a never-assigned speed): with no payload, or with the
`STATS` lookup failing (the caught `LookupError`), the
`expected_fans` fresh fan objects keep unknown speeds; otherwise fan `i`
reads `STATS[1].get("fan" + str(fan_offset + i), 0)`. -/
def get_fans (expectedFans : Nat) (rpcStats : Option RpcStatsOld) : List (Option ℚ) :=
  match rpcStats with
  | Option.none => (List.range expectedFans).map (fun _ => Option.none)
  | some rs =>
    match rs.stats with
    | Option.none => (List.range expectedFans).map (fun _ => Option.none)
    | some arr =>
      match arr.get? 1 with
      | Option.none => (List.range expectedFans).map (fun _ => Option.none)
      | some stats1 =>
        let off := (fan_offset stats1).toNat
        (List.range expectedFans).map
          (fun i => some ((pyGet stats1 ("fan" ++ toString (off + i))).getD 0))

/-- board_offset embeds the hashboard offset-detection scan of
`AntminerOld._get_hashboards` (lines 671-680 of
src/pyasic/miners/backends/antminer.py): for each candidate group start
`board_num` in `range(1, 16, 5)` and each of the five keys
`chain_acn(board_num + _b_num)`, the first nonzero reading fixes the
offset to `board_num`; the offset defaults to `1`. -/
def board_offset (stats1 : List (String × ℚ)) : Int :=
  let scanGroup := fun (acc : Int) (boardNum : Nat) =>
    (List.range 5).foldl (fun a bNum =>
      match pyGet stats1 ("chain_acn" ++ toString (boardNum + bNum)) with
      | some b => if b ≠ 0 ∧ a = -1 then (boardNum : Int) else a
      | Option.none => a) acc
  let off := ([1, 6, 11] : List Nat).foldl scanGroup (-1)
  if off = -1 then 1 else off

/-- chipsReadingPositive is the predicate under which the per-board
`chain_acn` reading clears the missing flag in
`AntminerOld._get_hashboards`: the key is present with a strictly
positive value. -/
def chipsReadingPositive (stats1 : List (String × ℚ)) (i : Nat) : Bool :=
  match pyGet stats1 ("chain_acn" ++ toString i) with
  | some c => decide (0 < c)
  | Option.none => false

/-- processBoard embeds one iteration of the board loop of
`AntminerOld._get_hashboards` (lines 682-714 of
src/pyasic/miners/backends/antminer.py) for slot `j` at detected offset
`off` (so device index `i = off + j`, slot `i - off = j`): truthy
`temp i` and `temp2_i` readings are rounded into the temperatures, a
truthy `chain_rate i` becomes the hashrate, a truthy `chain_acn i`
becomes the chip count clearing the missing flag, and the flag is set
back whenever the reading is falsy or not positive.  The source assigns
these fields imperatively in sequence; the record below computes each
field from the same reading with the same guards. -/
def processBoard (expectedChips : Option Int) (stats1 : List (String × ℚ))
    (off : Nat) (j : Nat) : HashBoard :=
  let i := off + j
  let chipTemp := pyGet stats1 ("temp" ++ toString i)
  let temp := pyGet stats1 ("temp2_" ++ toString i)
  let rate := pyGet stats1 ("chain_rate" ++ toString i)
  let chips := pyGet stats1 ("chain_acn" ++ toString i)
  let missingAfterFirst : Bool :=
    match chips with
    | some c => if c ≠ 0 then false else true
    | Option.none => true
  { slot := (j : Int),
    chip_temp :=
      match chipTemp with
      | some t => if t ≠ 0 then some ((pyRound t : Int) : ℚ) else Option.none
      | Option.none => Option.none,
    temp :=
      match temp with
      | some t => if t ≠ 0 then some ((pyRound t : Int) : ℚ) else Option.none
      | Option.none => Option.none,
    hashrate :=
      match rate with
      | some r => if r ≠ 0 then some r else Option.none
      | Option.none => Option.none,
    chips :=
      match chips with
      | some c => if c ≠ 0 then some c else Option.none
      | Option.none => Option.none,
    serial_number := Option.none,
    expected_chips := expectedChips,
    missing :=
      match chips with
      | some c => if c = 0 then true else if ¬ (0 < c) then true else missingAfterFirst
      | Option.none => true }

/-- get_hashboards_core is the board loop of
`AntminerOld._get_hashboards` once `STATS[1]` is at hand: boards are
built for every slot `0 ≤ j < expected_hashboards` at the detected
offset and appended unconditionally. -/
def get_hashboards_core (expectedHashboards : Nat) (expectedChips : Option Int)
    (stats1 : List (String × ℚ)) : List HashBoard :=
  let off := (board_offset stats1).toNat
  (List.range expectedHashboards).map (processBoard expectedChips stats1 off)

/-- get_hashboards embeds `AntminerOld._get_hashboards` (lines 659-716
of src/pyasic/miners/backends/antminer.py): with no payload the empty
list is returned; a missing `STATS` key is the caught `LookupError`
returning one fresh placeholder per expected board; a `STATS` array
with at most one entry produces no boards; otherwise the board loop
runs on `STATS[1]`. -/
def get_hashboards (expectedHashboards : Nat) (expectedChips : Option Int)
    (rpcStats : Option RpcStatsOld) : List HashBoard :=
  match rpcStats with
  | Option.none => []
  | some rs =>
    match rs.stats with
    | Option.none =>
      (List.range expectedHashboards).map
        (fun (i : Nat) => ({ slot := (i : Int), expected_chips := expectedChips } : HashBoard))
    | some boards =>
      if 1 < boards.length then
        get_hashboards_core expectedHashboards expectedChips ((boards.get? 1).getD [])
      else []

/-- is_mining embeds `AntminerOld._is_mining` (lines 718-741 of
src/pyasic/miners/backends/antminer.py).  The second argument is the
`rpc.summary()` fallback fetched when the configuration payload or its
key is unavailable (`none` models that fetch failing with a caught
`APIError`, after which the function falls through to unknown).  With
the key present, `int(...)` is applied to the raw value with only
`LookupError` caught, so a `ValueError`/`TypeError` from `int` escapes;
otherwise a non-empty summary means mining. -/
def is_mining (webGetConf : Option (List (String × PyVal)))
    (rpcSummary : Option (List (String × PyVal))) : Except PyExc (Option Bool) :=
  let fallback : Except PyExc (Option Bool) :=
    match rpcSummary with
    | some s => Except.ok (some (!s.isEmpty))
    | Option.none => Except.ok Option.none
  match webGetConf with
  | Option.none => fallback
  | some d =>
    match pyGet d "bitmain-work-mode" with
    | Option.none => fallback
    | some v =>
      match pyIntOf v with
      | Except.ok n => Except.ok (some (n != 1))
      | Except.error e => Except.error e

/-- is_sleep embeds `AntminerOld._is_sleep` (lines 743-767 of
src/pyasic/miners/backends/antminer.py): the entire body consulting the
configuration is commented out in the source and the function returns
`True` unconditionally, ignoring its dependency payload. -/
def is_sleep (_webGetConf : Option (List (String × PyVal))) : Bool :=
  true

end AntminerOld

/-- antminerOldDataLoc is the old-interface field descriptor table
`ANTMINER_OLD_DATA_LOC` (lines 493-543 of
src/pyasic/miners/backends/antminer.py), keyed here by extraction
function name (the `DataOptions` field-name enum lives outside src/) and
listing each entry's command descriptors as (alias, command) pairs. -/
def antminerOldDataLoc : List (String × List (String × String)) :=
  [("_get_api_ver", [("rpc_version", "version")]),
   ("_get_fw_ver", [("rpc_version", "version")]),
   ("_get_hostname", [("web_get_system_info", "get_system_info")]),
   ("_get_hashrate", [("rpc_summary", "summary")]),
   ("_get_hashboards", [("rpc_stats", "stats")]),
   ("_get_fans", [("rpc_stats", "stats")]),
   ("_get_fault_light", [("web_get_blink_status", "get_blink_status")]),
   ("_is_mining", [("web_get_conf", "get_miner_conf")]),
   ("_is_sleep", [("web_get_conf", "get_miner_conf")]),
   ("_get_uptime", [("rpc_stats", "stats")]),
   ("_get_pools", [("rpc_pools", "pools")])]

/-- mskFanStats is the fan-relevant projection of the `STATS[1]` entry
of the `rpc_stats` fixture in
src/tests/miners_tests/backends_tests/mskminer_tests/version_2_6_0_39.py
(lines 92-100): four expected fans reading 5010, 5160, 5070 and 5040 on
`fan1`..`fan4`, zeros on `fan5`..`fan8`. -/
def mskFanStats : List (String × ℚ) :=
  [("fan_num", 4),
   ("fan1", 5010), ("fan2", 5160), ("fan3", 5070), ("fan4", 5040),
   ("fan5", 0), ("fan6", 0), ("fan7", 0), ("fan8", 0)]

/-- mskRpcStats wraps `mskFanStats` in the payload shape
`AntminerOld._get_fans` navigates: `STATS[0]` is the version banner
(holding no numeric key the extraction reads, projected empty) and
`STATS[1]` the stats section. -/
def mskRpcStats : RpcStatsOld :=
  { stats := some [[], mskFanStats] }

/-- bareChainBoard is a modern `chain` entry whose board is present in
the topology (it has an `index`) but reports no telemetry: no hashrate,
no chip count, no temperatures, no serial number. -/
def bareChainBoard : ChainBoard :=
  { index := some 0 }

/-- c1MulticommandData is the multicommand response of the spec's status
check example: sub-command `cmd1` succeeded with status `S`, sub-command
`cmd2` failed with status `E` and device message `bad`. -/
def c1MulticommandData : List (String × PyVal) :=
  [("cmd1", PyVal.list [PyVal.dict [("STATUS", PyVal.list [PyVal.dict
      [("STATUS", PyVal.str "S")]])]]),
   ("cmd2", PyVal.list [PyVal.dict [("STATUS", PyVal.list [PyVal.dict
      [("STATUS", PyVal.str "E"), ("Msg", PyVal.str "bad")]])]])]

theorem pyJoin_append_head (s a x : String) (bs : List String) :
    BaseMinerAPI.pyJoin s ((a ++ x) :: bs) = a ++ BaseMinerAPI.pyJoin s (x :: bs) := by
  cases bs <;> simp [BaseMinerAPI.pyJoin, String.append_assoc]

theorem intercalate_go_eq_pyJoin (s : String) (as : List String) :
    ∀ acc : String, String.intercalate.go acc s as = BaseMinerAPI.pyJoin s (acc :: as) := by
  induction as with
  | nil => intro acc; simp [String.intercalate.go, BaseMinerAPI.pyJoin]
  | cons b bs ih =>
    intro acc
    have h2 : acc ++ s ++ b = acc ++ (s ++ b) := by simp [String.append_assoc]
    calc String.intercalate.go acc s (b :: bs)
        = String.intercalate.go (acc ++ s ++ b) s bs := by
          simp [String.intercalate.go]
      _ = BaseMinerAPI.pyJoin s ((acc ++ s ++ b) :: bs) := ih _
      _ = BaseMinerAPI.pyJoin s ((acc ++ (s ++ b)) :: bs) := by rw [h2]
      _ = acc ++ BaseMinerAPI.pyJoin s ((s ++ b) :: bs) := pyJoin_append_head s acc (s ++ b) bs
      _ = acc ++ (s ++ BaseMinerAPI.pyJoin s (b :: bs)) := by rw [pyJoin_append_head s s b bs]
      _ = acc ++ s ++ BaseMinerAPI.pyJoin s (b :: bs) := by simp [String.append_assoc]
      _ = BaseMinerAPI.pyJoin s (acc :: b :: bs) := by
          cases bs <;> simp [BaseMinerAPI.pyJoin, String.append_assoc]

/-- Claim C8: for every multicommand invocation with at least one
command name, the request issued is the names joined in order by the
separator `+` (`String.intercalate` being the reference description of
that joining), and for a single name the request is that name itself. -/
theorem multicommand_joins_with_plus (c : String) (cs : List String) :
    BaseMinerAPI.multicommand (c :: cs) = String.intercalate "+" (c :: cs) ∧
    BaseMinerAPI.multicommand [c] = c := by
  constructor
  · simp [BaseMinerAPI.multicommand, String.intercalate, intercalate_go_eq_pyJoin]
  · rfl

/-- Claim C1 (code bug witness): on the spec's multicommand example,
where sub-command `cmd2` fails with device message `bad`, the
status-check phase of `send_command` raises `KeyError("STATUS")` — not
an `APIError` carrying `bad` — because the error path evaluates
`data["STATUS"][0]["Msg"]` in the very branch whose condition is that
the top-level `STATUS` key is absent. -/
theorem multicommand_error_msg_lookup_keyerror :
    BaseMinerAPI.statusCheck c1MulticommandData
      = Except.error (PyExc.keyError "STATUS") := by rfl

/-- Claim C5 (counterexample): a failing single-command response without
a device-supplied `Msg` does not produce a protocol error with a generic
message: the `Msg` lookup itself raises `KeyError("Msg")`. -/
theorem missing_msg_keyerror :
    BaseMinerAPI.statusCheck
      [("STATUS", PyVal.list [PyVal.dict [("STATUS", PyVal.str "E")]])]
      = Except.error (PyExc.keyError "Msg") := by rfl

/-- Claim C2 (counterexample): on the MSK fixture payload (fan1..fan4
reading 5010, 5160, 5070, 5040 and fan5..fan8 zero) the offset-detecting
`AntminerOld._get_fans` does not return the speeds
`[5010, 5160, 5070, 5040]`. -/
theorem get_fans_msk_fixture_not_first_four :
    AntminerOld.get_fans 4 (some mskRpcStats)
      ≠ [some 5010, some 5160, some 5070, some 5040] := by decide

/-- Claim C2 (amended): on the MSK fixture payload the offset-detection
scan finds its first nonzero reading in the group starting at `fan1` and
therefore fixes the offset to `1 + 2 = 3`, so the four returned speeds
are the readings of `fan3`..`fan6`: `[5070, 5040, 0, 0]`. -/
theorem get_fans_msk_fixture_offset_three :
    AntminerOld.fan_offset mskFanStats = 3 ∧
    AntminerOld.get_fans 4 (some mskRpcStats)
      = [some 5070, some 5040, some 0, some 0] := by
  constructor <;> rfl

/-- Claim C3 (counterexample): `AntminerModern._get_hashboards` omits a
board that is present in the topology (its chain entry has an index) but
lacks usable telemetry, instead of returning a placeholder entry flagged
missing: the returned list is empty. -/
theorem modern_hashboards_omit_missing_board :
    AntminerModern.get_hashboards (some 88) [bareChainBoard] = [] := by rfl

/-- Claim C4 (counterexample): `AntminerOld._is_mining` is not total
over payloads with values of unexpected type: a non-numeric
`bitmain-work-mode` string reaches `int(...)`, whose `ValueError` is not
caught by the surrounding `except LookupError`. -/
theorem is_mining_old_nonnumeric_raises :
    AntminerOld.is_mining (some [("bitmain-work-mode", PyVal.str "sleep")]) Option.none
      = Except.error (PyExc.valueError "sleep") := by rfl

/-- Claim C9: `AntminerOld._is_sleep` returns `True` for every input —
its result never depends on the configuration payload — even though the
old-interface field descriptor table declares it to depend on the
`web_get_conf` command. -/
theorem is_sleep_old_constant_true :
    (∀ conf, AntminerOld.is_sleep conf = true) ∧
    (∀ c1 c2, AntminerOld.is_sleep c1 = AntminerOld.is_sleep c2) ∧
    pyGet antminerOldDataLoc "_is_sleep" = some [("web_get_conf", "get_miner_conf")] := by
  exact ⟨fun _ => rfl, fun _ _ => rfl, by rfl⟩

/-- Claim C6: stripping the sentinel removes exactly the final character
of the decoded text, so a received text consisting of a document followed
by one sentinel character strips back to exactly that document; and on a
nonempty text that did not get its sentinel appended, stripping does not
return the original text (the documented boundary case). -/
theorem sentinel_strip_roundtrip (doc : List Char) (c : Char) :
    BaseMinerAPI.stripSentinel (doc ++ [c]) = doc ∧
    (doc ≠ [] → BaseMinerAPI.stripSentinel doc ≠ doc) := by
  constructor
  · simp [BaseMinerAPI.stripSentinel]
  · intro hne heq
    have hlen := congrArg List.length heq
    simp [BaseMinerAPI.stripSentinel, List.length_dropLast] at hlen
    have hpos : 0 < doc.length := List.length_pos.mpr hne
    omega

/-- Witness for claim C6 at the concrete text `ok` and sentinel `|`. -/
theorem sentinel_strip_roundtrip_witness :
    BaseMinerAPI.stripSentinel (['o', 'k'] ++ ['|']) = ['o', 'k'] ∧
    BaseMinerAPI.stripSentinel ['o', 'k'] ≠ ['o', 'k'] := by
  refine ⟨(sentinel_strip_roundtrip ['o', 'k'] '|').1, ?_⟩
  exact (sentinel_strip_roundtrip ['o', 'k'] '|').2 (by decide)

theorem pyEqStr_false_of_ne (v : PyVal) (s : String) (h : v ≠ PyVal.str s) :
    pyEqStr v s = false := by
  cases v
  case str t =>
    have ht : t ≠ s := fun heq => h (by rw [heq])
    simp [pyEqStr, ht]
  all_goals rfl

theorem statusCheck_single_reduce
    (stFields : List (String × PyVal)) (rest : List PyVal) (tl : List (String × PyVal))
    (code : PyVal) (hcode : pyGet stFields "STATUS" = some code) :
    BaseMinerAPI.statusCheck (("STATUS", PyVal.list (PyVal.dict stFields :: rest)) :: tl) =
      (if !(pyEqStr code "S" || pyEqStr code "I")
       then match pyGet stFields "Msg" with
            | some m => Except.error (PyExc.apiError m)
            | Option.none => Except.error (PyExc.keyError "Msg")
       else Except.ok (("STATUS", PyVal.list (PyVal.dict stFields :: rest)) :: tl)) := by
  have hnav : pySubscriptStr (PyVal.dict stFields) "STATUS" = Except.ok code := by
    simp [pySubscriptStr, hcode]
  show Except.bind (pySubscriptStr (PyVal.dict stFields) "STATUS")
      (fun c => if !(pyEqStr c "S" || pyEqStr c "I")
        then Except.bind (pySubscriptStr (PyVal.dict stFields) "Msg")
               (fun msg => Except.error (PyExc.apiError msg))
        else Except.ok (("STATUS", PyVal.list (PyVal.dict stFields :: rest)) :: tl))
    = _
  rw [hnav]
  show (if !(pyEqStr code "S" || pyEqStr code "I")
        then Except.bind (pySubscriptStr (PyVal.dict stFields) "Msg")
               (fun msg => Except.error (PyExc.apiError msg))
        else Except.ok (("STATUS", PyVal.list (PyVal.dict stFields :: rest)) :: tl)) = _
  split
  · cases hmsg : pyGet stFields "Msg" <;> simp [pySubscriptStr, hmsg, Except.bind]
  · rfl

/-- Claim C5 (amended): for a single-command response (top-level
`STATUS` array), a status of `S` or `I` returns the parsed payload
unchanged, and any other status raises `APIError` carrying the
device-supplied `Msg` when one is present; when no `Msg` is present the
lookup itself raises `KeyError("Msg")` (the generic message of
`APIError` is never produced by `send_command`). -/
theorem single_command_status_classification
    (stFields : List (String × PyVal)) (rest : List PyVal) (tl : List (String × PyVal))
    (code : PyVal) (hcode : pyGet stFields "STATUS" = some code) :
    ((code = PyVal.str "S" ∨ code = PyVal.str "I") →
      BaseMinerAPI.statusCheck (("STATUS", PyVal.list (PyVal.dict stFields :: rest)) :: tl)
        = Except.ok (("STATUS", PyVal.list (PyVal.dict stFields :: rest)) :: tl)) ∧
    (code ≠ PyVal.str "S" → code ≠ PyVal.str "I" →
      (∀ m, pyGet stFields "Msg" = some m →
        BaseMinerAPI.statusCheck (("STATUS", PyVal.list (PyVal.dict stFields :: rest)) :: tl)
          = Except.error (PyExc.apiError m)) ∧
      (pyGet stFields "Msg" = Option.none →
        BaseMinerAPI.statusCheck (("STATUS", PyVal.list (PyVal.dict stFields :: rest)) :: tl)
          = Except.error (PyExc.keyError "Msg"))) := by
  rw [statusCheck_single_reduce stFields rest tl code hcode]
  constructor
  · rintro (rfl | rfl) <;> rfl
  · intro hS hI
    rw [pyEqStr_false_of_ne code "S" hS, pyEqStr_false_of_ne code "I" hI]
    constructor
    · intro m hm; simp [hm]
    · intro hm; simp [hm]

/-- Witness for claim C5: a failing response with status `E` and device
message `bad` raises `APIError` carrying `bad`. -/
theorem single_command_status_classification_witness :
    BaseMinerAPI.statusCheck
      [("STATUS", PyVal.list [PyVal.dict [("STATUS", PyVal.str "E"), ("Msg", PyVal.str "bad")]])]
      = Except.error (PyExc.apiError (PyVal.str "bad")) := by
  have hne1 : PyVal.str "E" ≠ PyVal.str "S" := by
    intro h; injection h with h2; exact absurd h2 (by decide)
  have hne2 : PyVal.str "E" ≠ PyVal.str "I" := by
    intro h; injection h with h2; exact absurd h2 (by decide)
  exact ((single_command_status_classification
      [("STATUS", PyVal.str "E"), ("Msg", PyVal.str "bad")] [] []
      (PyVal.str "E") rfl).2 hne1 hne2).1 (PyVal.str "bad") rfl

/-- Claim C7: within a board temperature sequence a literal-zero reading
is treated as an absent sensor: the extracted average of `[45, 0, 47]`
is the mean `46` of the nonzero readings only (not `92/3`), and a
sequence of only zeros produces no temperature at all. -/
theorem zero_temp_excluded_from_average :
    boardTempAvg [45, 0, 47] = some 46 ∧
    boardTempAvg [45, 0, 47] ≠ some (92 / 3) ∧
    (∀ temps : List ℚ, (∀ t ∈ temps, t = 0) → boardTempAvg temps = Option.none) := by
  have hfil : List.filter (fun t => t != 0) ([45, 0, 47] : List ℚ) = [45, 47] := by
    have e1 : ((45 : ℚ) != 0) = true := by simp only [bne_iff_ne, ne_eq]; norm_num
    have e2 : ((47 : ℚ) != 0) = true := by simp only [bne_iff_ne, ne_eq]; norm_num
    have e0 : ((0 : ℚ) != 0) = false := by simp
    simp [List.filter_cons, e1, e2, e0]
  have h1 : boardTempAvg [45, 0, 47] = some 46 := by
    simp only [boardTempAvg, hfil]
    norm_num
  refine ⟨h1, ?_, ?_⟩
  · rw [h1]
    simp only [ne_eq, Option.some.injEq]
    norm_num
  · intro temps h
    have hz : temps.filter (fun t => t != 0) = [] := by
      rw [List.filter_eq_nil_iff]
      intro a ha
      simp [h a ha]
    simp [boardTempAvg, hz]

/-- Witness for claim C7: the all-zero sequence `[0, 0]` is assigned no
temperature. -/
theorem zero_temp_excluded_from_average_witness :
    boardTempAvg [0, 0] = Option.none :=
  zero_temp_excluded_from_average.2.2 [0, 0] (by decide)

/-- Claim C4 (amended): the cited extraction functions are total over
absent dependencies — an unavailable payload or a missing key resolves
to unknown, never an exception — though not over values of unexpected
type (see the `ValueError` counterexample). -/
theorem extraction_total_over_absent_inputs
    (conf : List (String × PyVal)) (stats : List (String × PyVal)) :
    AntminerOld.is_mining Option.none Option.none = Except.ok Option.none ∧
    (pyGet conf "bitmain-work-mode" = Option.none →
      AntminerOld.is_mining (some conf) Option.none = Except.ok Option.none) ∧
    AntminerModern.get_expected_hashrate Option.none = Except.ok Option.none ∧
    (pyGet stats "STATS" = Option.none →
      AntminerModern.get_expected_hashrate (some stats) = Except.ok Option.none) := by
  refine ⟨rfl, ?_, rfl, ?_⟩
  · intro h
    simp [AntminerOld.is_mining, h]
  · intro h
    have h1 : pySubscriptStr (PyVal.dict stats) "STATS"
        = Except.error (PyExc.keyError "STATS") := by
      simp [pySubscriptStr, h]
    have h2 : AntminerModern.expected_rate_nav stats
        = Except.error (PyExc.keyError "STATS") := by
      show Except.bind (pySubscriptStr (PyVal.dict stats) "STATS") _ = _
      rw [h1]
      rfl
    simp [AntminerModern.get_expected_hashrate, h2, isLookupError]

/-- Witness for claim C4 at the empty payloads. -/
theorem extraction_total_over_absent_inputs_witness :
    AntminerOld.is_mining (some []) Option.none = Except.ok Option.none ∧
    AntminerModern.get_expected_hashrate (some []) = Except.ok Option.none :=
  ⟨(extraction_total_over_absent_inputs [] []).2.1 rfl,
   (extraction_total_over_absent_inputs [] []).2.2.2 rfl⟩

theorem processBoard_slot (ec : Option Int) (stats1 : List (String × ℚ)) (off j : Nat) :
    (AntminerOld.processBoard ec stats1 off j).slot = (j : Int) := rfl

theorem processBoard_missing (ec : Option Int) (stats1 : List (String × ℚ)) (off j : Nat) :
    (AntminerOld.processBoard ec stats1 off j).missing
      = !(AntminerOld.chipsReadingPositive stats1 (off + j)) := by
  unfold AntminerOld.processBoard AntminerOld.chipsReadingPositive
  cases hc : pyGet stats1 ("chain_acn" ++ toString (off + j)) with
  | none => simp [hc]
  | some c =>
    simp only [hc]
    by_cases h0 : c = 0
    · subst h0; simp
    · by_cases hpos : 0 < c
      · simp [h0, hpos]
      · simp [h0, hpos]

/-- Claim C3 (amended): `AntminerOld._get_hashboards` represents every
expected board slot, telemetry or not: on the main path the returned
list has exactly one entry per expected slot, entry `j` carries slot
number `j`, and its missing flag is set exactly when its `chain_acn`
reading is absent or not positive — boards lacking telemetry are
explicit placeholders, never omitted; on the missing-`STATS` fallback
path every slot likewise yields a placeholder flagged missing.
(`AntminerModern._get_hashboards` instead omits such boards — see the
counterexample.) -/
theorem old_hashboards_placeholders_preserved (eh : Nat) (ec : Option Int)
    (stats1 : List (String × ℚ)) :
    (AntminerOld.get_hashboards_core eh ec stats1).length = eh ∧
    (∀ j (h : j < (AntminerOld.get_hashboards_core eh ec stats1).length),
      ((AntminerOld.get_hashboards_core eh ec stats1).get ⟨j, h⟩).slot = (j : Int) ∧
      ((AntminerOld.get_hashboards_core eh ec stats1).get ⟨j, h⟩).missing
        = !(AntminerOld.chipsReadingPositive stats1
             ((AntminerOld.board_offset stats1).toNat + j))) ∧
    (AntminerOld.get_hashboards eh ec (some { stats := Option.none })).length = eh ∧
    (∀ j (h : j < (AntminerOld.get_hashboards eh ec (some { stats := Option.none })).length),
      ((AntminerOld.get_hashboards eh ec (some { stats := Option.none })).get ⟨j, h⟩).slot
        = (j : Int) ∧
      ((AntminerOld.get_hashboards eh ec (some { stats := Option.none })).get ⟨j, h⟩).missing
        = true) := by
  refine ⟨?_, ?_, ?_, ?_⟩
  · simp [AntminerOld.get_hashboards_core]
  · intro j h
    have hget : (AntminerOld.get_hashboards_core eh ec stats1).get ⟨j, h⟩
        = AntminerOld.processBoard ec stats1 (AntminerOld.board_offset stats1).toNat j := by
      simp [AntminerOld.get_hashboards_core, List.get_eq_getElem]
    rw [hget]
    exact ⟨processBoard_slot _ _ _ _, processBoard_missing _ _ _ _⟩
  · show ((List.range eh).map
        (fun (i : Nat) => ({ slot := (i : Int), expected_chips := ec } : HashBoard))).length = eh
    simp only [List.length_map, List.length_range]
  · intro j h
    have hget : (AntminerOld.get_hashboards eh ec (some { stats := Option.none })).get ⟨j, h⟩
        = ({ slot := (j : Int), expected_chips := ec } : HashBoard) := by
      show ((List.range eh).map
          (fun (i : Nat) => ({ slot := (i : Int), expected_chips := ec } : HashBoard))).get _
        = _
      rw [List.get_eq_getElem]
      simp only [List.getElem_map, List.getElem_range]
    rw [hget]
    exact ⟨rfl, rfl⟩

/-- Witness for claim C3: with two expected boards and only board 1
reporting chips, slot 1 is still present, positionally numbered and
flagged missing. -/
theorem old_hashboards_placeholders_preserved_witness :
    (AntminerOld.get_hashboards_core 2 Option.none [("chain_acn1", (88 : ℚ))]).length = 2 ∧
    ((AntminerOld.get_hashboards_core 2 Option.none [("chain_acn1", (88 : ℚ))]).get
        ⟨1, by decide⟩).slot = (1 : Int) ∧
    ((AntminerOld.get_hashboards_core 2 Option.none [("chain_acn1", (88 : ℚ))]).get
        ⟨1, by decide⟩).missing = true := by
  have h := old_hashboards_placeholders_preserved 2 Option.none [("chain_acn1", (88 : ℚ))]
  refine ⟨h.1, (h.2.1 1 (by decide)).1, ?_⟩
  rw [(h.2.1 1 (by decide)).2]
  decide

theorem digit_ne_char (c d : Char) (h : c.isDigit = true) (hd : d.isDigit = false) :
    (c == d) = false := by
  cases hb : (c == d)
  · rfl
  · have hcd : c = d := beq_iff_eq.mp hb
    subst hcd
    rw [h] at hd
    exact Bool.noConfusion hd

theorem dropWhile_space_of_digits (l : List Char) (hall : ∀ c ∈ l, c.isDigit = true) :
    l.dropWhile (fun c => c == ' ') = l := by
  cases l with
  | nil => rfl
  | cons a as =>
    have ha : (a == ' ') = false :=
      digit_ne_char a ' ' (hall a (List.mem_cons_self a as)) (by decide)
    simp [List.dropWhile_cons, ha]

theorem trimSpaces_of_digits (l : List Char) (hall : ∀ c ∈ l, c.isDigit = true) :
    trimSpaces l = l := by
  unfold trimSpaces
  rw [dropWhile_space_of_digits l hall]
  have hrev : ∀ c ∈ l.reverse, c.isDigit = true := by
    intro c hc
    exact hall c (List.mem_reverse.mp hc)
  rw [dropWhile_space_of_digits _ hrev, List.reverse_reverse]

theorem digits_foldl_some (cs : List Char) (hall : ∀ c ∈ cs, c.isDigit = true) :
    ∀ m : Nat, ∃ n, cs.foldl (fun acc c =>
      match acc with
      | Option.none => Option.none
      | some n => if c.isDigit then some (n * 10 + (c.toNat - 48)) else Option.none)
      (some m) = some n := by
  induction cs with
  | nil => intro m; exact ⟨m, rfl⟩
  | cons a as ih =>
    intro m
    have ha := hall a (List.mem_cons_self a as)
    simp only [List.foldl_cons, ha, if_true]
    exact ih (fun c hc => hall c (List.mem_cons_of_mem a hc)) _

theorem digitsVal_some (cs : List Char) (hne : cs.isEmpty = false)
    (hall : ∀ c ∈ cs, c.isDigit = true) : ∃ n, digitsVal cs = some n := by
  unfold digitsVal
  rw [hne]
  simp only [Bool.false_eq_true, if_false]
  exact digits_foldl_some cs hall 0

theorem pyParseInt_ok_of_digits (s : String) (h : pyIsDigit s = true) :
    ∃ n, pyParseInt s = Except.ok n := by
  unfold pyIsDigit at h
  have hne : s.data.isEmpty = false := by
    cases hd : s.data.isEmpty
    · rfl
    · rw [hd] at h; simp at h
  have hallb : s.data.all Char.isDigit = true := by
    cases ha : s.data.all Char.isDigit
    · rw [ha] at h; simp at h
    · rfl
  have hall : ∀ c ∈ s.data, c.isDigit = true := by
    intro c hc
    exact List.all_eq_true.mp hallb c hc
  have htrim : trimSpaces s.data = s.data := trimSpaces_of_digits s.data hall
  unfold pyParseInt
  rw [htrim]
  cases hd : s.data with
  | nil => rw [hd] at hne; exact Bool.noConfusion hne
  | cons a as =>
    have hmem : ∀ c ∈ a :: as, c.isDigit = true := by rw [← hd]; exact hall
    have ha : a.isDigit = true := hmem a (List.mem_cons_self a as)
    have hminus : (a == '-') = false := digit_ne_char a '-' ha (by decide)
    have hplus : (a == '+') = false := digit_ne_char a '+' ha (by decide)
    simp only [hminus, hplus, Bool.false_eq_true, if_false]
    obtain ⟨n, hn⟩ := digitsVal_some (a :: as) (by rfl) hmem
    rw [hn]
    exact ⟨n, rfl⟩

theorem dot_not_digit_block (x y : String) :
    pyIsDigit (x ++ "." ++ y) = false := by
  unfold pyIsDigit
  have hmem : '.' ∈ (x ++ "." ++ y).data := by
    rw [String.data_append, String.data_append]
    exact List.mem_append_left _ (List.mem_append_right _ (by decide))
  cases hall : (x ++ "." ++ y).data.all Char.isDigit
  · simp
  · have := List.all_eq_true.mp hall '.' hmem
    exact absurd this (by decide)

theorem pyIntOf_ok_of_isdigit (v : PyVal) (h : pyIsDigit (pyStrOf v) = true) :
    ∃ n, pyIntOf v = Except.ok n := by
  cases v with
  | int n => exact ⟨n, rfl⟩
  | str s => exact pyParseInt_ok_of_digits s h
  | float q =>
    rw [show pyStrOf (PyVal.float q) = toString q.num ++ "." ++ toString q.den from rfl,
      dot_not_digit_block] at h
    exact Bool.noConfusion h
  | boolean b => cases b <;> exact absurd h (by decide)
  | null => exact absurd h (by decide)
  | list l =>
    rw [show pyStrOf (PyVal.list l) = "[...]" from rfl] at h
    exact absurd h (by decide)
  | dict d =>
    rw [show pyStrOf (PyVal.dict d) = "\x7b...\x7d" from rfl] at h
    exact absurd h (by decide)

/-- Claim C10: for `AntminerModern`, `_is_mining` and `_is_sleep` are
complementary on well-formed input: whenever the `bitmain-work-mode`
value stringifies to a digit string the two results are `some b` and
`some (not b)` (both keyed on whether the mode equals 1), and whenever
the value is present but does not stringify to a digit string both
functions return `False`. -/
theorem is_mining_is_sleep_complementary
    (d : List (String × PyVal)) (v : PyVal)
    (hv : pyGet d "bitmain-work-mode" = some v) :
    (pyIsDigit (pyStrOf v) = true →
      ∃ b : Bool, AntminerModern.is_mining (some d) = Except.ok (some b) ∧
        AntminerModern.is_sleep (some d) = Except.ok (some (!b))) ∧
    (pyIsDigit (pyStrOf v) = false →
      AntminerModern.is_mining (some d) = Except.ok (some false) ∧
      AntminerModern.is_sleep (some d) = Except.ok (some false)) := by
  constructor
  · intro hdig
    obtain ⟨n, hn⟩ := pyIntOf_ok_of_isdigit v hdig
    refine ⟨n != 1, ?_, ?_⟩
    · simp [AntminerModern.is_mining, hv, hdig, hn]
    · simp only [AntminerModern.is_sleep, hv, hdig, if_true, hn]
      have hb : (n == 1) = !(n != 1) := by simp [bne]
      rw [hb]
  · intro hdig
    constructor
    · simp [AntminerModern.is_mining, hv, hdig]
    · simp [AntminerModern.is_sleep, hv, hdig]

/-- Witness for claim C10: with mode `1` the device is asleep and not
mining; with the non-digit mode `x` both predicates return `False`. -/
theorem is_mining_is_sleep_complementary_witness :
    AntminerModern.is_sleep (some [("bitmain-work-mode", PyVal.str "1")])
      = Except.ok (some true) ∧
    AntminerModern.is_mining (some [("bitmain-work-mode", PyVal.str "x")])
      = Except.ok (some false) := by
  obtain ⟨b, hm, hs⟩ :=
    (is_mining_is_sleep_complementary [("bitmain-work-mode", PyVal.str "1")]
      (PyVal.str "1") rfl).1 (by decide)
  have hcalc : AntminerModern.is_mining (some [("bitmain-work-mode", PyVal.str "1")])
      = Except.ok (some false) := by rfl
  have hb : false = b := by simpa using hcalc.symm.trans hm
  cases hb
  refine ⟨hs, ?_⟩
  exact ((is_mining_is_sleep_complementary [("bitmain-work-mode", PyVal.str "x")]
      (PyVal.str "x") rfl).2 (by decide)).1
